import Mathlib

/-!
Shallow embedding of the github-mcp core: the JSON-like value model, the
coercion layer, the URL builder, the identifier guards, the dispatcher
normalization, the result parsers, and the catalog operations that the
claims refer to.  Each definition mirrors the corresponding Python
function in `src/gh` or `src/tools`.
-/

/-- Untyped JSON-like value: the payload shape flowing through the core
(`JSONValue` in `src/gh/types.py`).  Numbers are modelled as integers. -/
inductive JSON where
  | null
  | bool (b : Bool)
  | num (n : Int)
  | str (s : String)
  | arr (xs : List JSON)
  | obj (kvs : List (String × JSON))

/-- Python truthiness (`bool(v)`) on JSON-like values. -/
def pyTruthy : JSON → Bool
  | .null => false
  | .bool b => b
  | .num n => n != 0
  | .str s => s != ""
  | .arr xs => !xs.isEmpty
  | .obj kvs => !kvs.isEmpty

/-- `isinstance(v, dict)`. -/
def JSON.isObj : JSON → Bool
  | .obj _ => true
  | _ => false

/-- `isinstance(v, list)`. -/
def JSON.isArr : JSON → Bool
  | .arr _ => true
  | _ => false

/-- `d.get(k)` on a value known to be a dict (`None` when missing);
returns `null` (= Python `None`) on non-dict input — callers below only
use it where the source has already checked `isinstance(v, dict)`. -/
def dictGet (j : JSON) (k : String) : JSON :=
  match j with
  | .obj kvs => (((kvs.find? (fun kv => kv.1 == k)).map Prod.snd).getD .null)
  | _ => .null

/-- `d.get(k, dflt)` with an explicit default. -/
def dictGetD (j : JSON) (k : String) (dflt : JSON) : JSON :=
  match j with
  | .obj kvs => (((kvs.find? (fun kv => kv.1 == k)).map Prod.snd).getD dflt)
  | _ => dflt

/-- Whether a dict has a key (`k in d` for dicts). -/
def hasKey (kvs : List (String × JSON)) (k : String) : Bool :=
  kvs.any (fun kv => kv.1 == k)

-- ## Python repr / str of values

/-- Lower-case hex digit. -/
def hexLower (n : Nat) : Char :=
  if n < 10 then Char.ofNat (48 + n) else Char.ofNat (87 + n)

/-- Upper-case hex digit. -/
def hexUpper (n : Nat) : Char :=
  if n < 10 then Char.ofNat (48 + n) else Char.ofNat (55 + n)

/-- The single-quote character. -/
def squote : Char := Char.ofNat 39

/-- One character of a Python string repr, escaped for quote `q`. -/
def reprEscapeChar (q : Char) (c : Char) : String :=
  if c == Char.ofNat 92 then "\\\\"
  else if c == q then "\\" ++ String.singleton q
  else if c == Char.ofNat 10 then "\\n"
  else if c == Char.ofNat 13 then "\\r"
  else if c == Char.ofNat 9 then "\\t"
  else if c.toNat < 32 || c.toNat == 127 then
    "\\x" ++ String.singleton (hexLower (c.toNat / 16)) ++ String.singleton (hexLower (c.toNat % 16))
  else String.singleton c

/-- Python `repr` of a string: quoted (single quotes unless the string
contains one and no double quote), with escapes. -/
def pyReprStr (s : String) : String :=
  let q := if s.data.contains squote && !s.data.contains (Char.ofNat 34) then Char.ofNat 34 else squote
  String.singleton q ++ String.join (s.data.map (reprEscapeChar q)) ++ String.singleton q

mutual

/-- Python `repr` of a JSON-like value (used by `str()` on lists/dicts). -/
def pyReprOf : JSON → String
  | .null => "None"
  | .bool b => if b then "True" else "False"
  | .num n => toString n
  | .str s => pyReprStr s
  | .arr xs => "[" ++ pyReprElems xs ++ "]"
  | .obj kvs => "\x7b" ++ pyReprKVs kvs ++ "\x7d"

/-- Comma-separated reprs of list elements. -/
def pyReprElems : List JSON → String
  | [] => ""
  | [x] => pyReprOf x
  | x :: y :: xs => pyReprOf x ++ ", " ++ pyReprElems (y :: xs)

/-- Comma-separated reprs of dict entries. -/
def pyReprKVs : List (String × JSON) → String
  | [] => ""
  | [(k, v)] => pyReprStr k ++ ": " ++ pyReprOf v
  | (k, v) :: kv :: kvs => pyReprStr k ++ ": " ++ pyReprOf v ++ ", " ++ pyReprKVs (kv :: kvs)

end

/-- Python `str()` of a JSON-like value. -/
def pyStrOf : JSON → String
  | .null => "None"
  | .bool b => if b then "True" else "False"
  | .num n => toString n
  | .str s => s
  | .arr xs => pyReprOf (.arr xs)
  | .obj kvs => pyReprOf (.obj kvs)

-- ## Python int() on a value

/-- Digit run to an integer value (helper for `int(str)`). -/
def digitsToInt (cs : List Char) (neg : Bool) : Option Int :=
  if cs.isEmpty || !cs.all Char.isDigit then none
  else
    let n : Nat := cs.foldl (fun acc c => acc * 10 + (c.toNat - 48)) 0
    some (if neg then -(n : Int) else (n : Int))

/-- Strip leading and trailing whitespace from a character list. -/
def trimChars (cs : List Char) : List Char :=
  ((cs.dropWhile Char.isWhitespace).reverse.dropWhile Char.isWhitespace).reverse

/-- Python `int(s)` on a string: strip whitespace, optional sign, digits;
`none` when the conversion raises `ValueError`. -/
def parsePyInt (s : String) : Option Int :=
  match trimChars s.data with
  | [] => none
  | c :: rest =>
      if c == Char.ofNat 43 then digitsToInt rest false
      else if c == Char.ofNat 45 then digitsToInt rest true
      else digitsToInt (c :: rest) false

-- ## Coercion layer (`src/gh/request.py`)

/-- `_str(val, default="")`: safely coerce to string. -/
def pyStr (val : JSON) (default : String := "") : String :=
  match val with
  | .null => default
  | v => pyStrOf v

/-- `_int(val, default=0)`: safely coerce to int; conversion failures
(`TypeError`/`ValueError` in the source) yield the default. -/
def pyInt (val : JSON) (default : Int := 0) : Int :=
  match val with
  | .null => default
  | .bool b => if b then 1 else 0
  | .num n => n
  | .str s => (parsePyInt s).getD default
  | .arr _ => default
  | .obj _ => default

/-- `_opt_str(val)`: safely coerce to optional string. -/
def pyOptStr (val : JSON) : Option String :=
  match val with
  | .null => none
  | v => some (pyStrOf v)

/-- `_bool(val, default=False)`: safely coerce to bool. -/
def pyBool (val : JSON) (default : Bool := false) : Bool :=
  match val with
  | .null => default
  | v => pyTruthy v

/-- `_nested_str(obj, key)`: extract a string from a nested dict. -/
def nestedStr (obj : JSON) (key : String) : Option String :=
  match obj with
  | .obj kvs => pyOptStr (dictGet (.obj kvs) key)
  | _ => none

/-- `_labels(val)`: extract label names from GitHub label objects —
entries that are dicts with a truthy `name`, in original order. -/
def pyLabels (val : JSON) : List String :=
  match val with
  | .arr xs =>
      (xs.filter (fun l => l.isObj && pyTruthy (dictGet l "name"))).map
        (fun l => pyStr (dictGet l "name"))
  | _ => []

-- ## URL builder (`build_url` in `src/gh/request.py`)

/-- A keyword-argument value accepted by `build_url` (str / int / bool). -/
inductive PVal where
  | s (v : String)
  | i (v : Int)
  | b (v : Bool)

/-- `str(val).lower() if isinstance(val, bool) else str(val)`. -/
def renderParam : PVal → String
  | .b true => "true"
  | .b false => "false"
  | .s v => v
  | .i v => toString v

/-- UTF-8 bytes of a code point (as `Nat`s below 256). -/
def utf8Bytes (n : Nat) : List Nat :=
  if n < 0x80 then [n]
  else if n < 0x800 then [0xC0 + n / 0x40, 0x80 + n % 0x40]
  else if n < 0x10000 then [0xE0 + n / 0x1000, 0x80 + (n / 0x40) % 0x40, 0x80 + n % 0x40]
  else [0xF0 + n / 0x40000, 0x80 + (n / 0x1000) % 0x40, 0x80 + (n / 0x40) % 0x40, 0x80 + n % 0x40]

/-- `%XX` percent-encoding of one byte (upper-case hex, as in `urllib`). -/
def percentByte (b : Nat) : String :=
  "%" ++ String.singleton (hexUpper (b / 16)) ++ String.singleton (hexUpper (b % 16))

/-- `urllib.parse.quote_plus` on one character: always-safe characters kept,
space becomes `+`, everything else percent-encoded bytewise. -/
def quotePlusChar (c : Char) : String :=
  if c.isAlphanum || c == Char.ofNat 95 || c == Char.ofNat 46 || c == Char.ofNat 45 || c == Char.ofNat 126 then
    String.singleton c
  else if c == Char.ofNat 32 then "+"
  else String.join ((utf8Bytes c.toNat).map percentByte)

/-- `urllib.parse.quote_plus` on a string. -/
def quotePlus (s : String) : String :=
  String.join (s.data.map quotePlusChar)

/-- `urllib.parse.urlencode` over the filtered (key, rendered-value) pairs. -/
def urlencode (ps : List (String × String)) : String :=
  String.intercalate "&" (ps.map (fun kv => quotePlus kv.1 ++ "=" ++ quotePlus kv.2))

/-- `build_url(endpoint, **params)`: drop absent (`None`) entries, render
booleans lowercase, everything else via `str`, and append the encoded
query string when any parameter survives. -/
def build_url (endpoint : String) (params : List (String × Option PVal)) : String :=
  let filtered := params.filterMap (fun kv => kv.2.map (fun v => (kv.1, renderParam v)))
  if filtered.isEmpty then endpoint
  else endpoint ++ "?" ++ urlencode filtered

-- ## Guards (`src/gh/guards.py`)

/-- One character of the `[a-zA-Z0-9._-]` class of `_NAME_RE`. -/
def nameClassChar (c : Char) : Bool :=
  c.isAlphanum || c == Char.ofNat 46 || c == Char.ofNat 95 || c == Char.ofNat 45

/-- Drop a single trailing newline (the `$` anchor of Python `re` also
matches just before a final newline). -/
def dropTrailingNewline (cs : List Char) : List Char :=
  match cs.reverse with
  | c :: front => if c == Char.ofNat 10 then front.reverse else cs
  | [] => cs

/-- `_NAME_RE.match(s)` is truthy: `^[a-zA-Z0-9][a-zA-Z0-9._-]*$`,
with the `$`-before-final-newline tolerance of Python `re`. -/
def nameMatch (s : String) : Bool :=
  match s.data with
  | [] => false
  | c :: rest => c.isAlphanum && (dropTrailingNewline rest).all nameClassChar

/-- `validate_owner(owner)`: error value is the raised `ValueError` message. -/
def validate_owner (owner : String) : Except String Unit :=
  if owner == "" || !nameMatch owner then
    .error ("Invalid GitHub owner: " ++ pyReprStr owner)
  else .ok ()

/-- `validate_repo(repo)`. -/
def validate_repo (repo : String) : Except String Unit :=
  if repo == "" || !nameMatch repo then
    .error ("Invalid repository name: " ++ pyReprStr repo)
  else .ok ()

/-- `validate_owner_repo(owner, repo)`. -/
def validate_owner_repo (owner repo : String) : Except String Unit := do
  validate_owner owner
  validate_repo repo

/-- `validate_path(path)`. -/
def validate_path (path : String) : Except String Unit :=
  if path == "" then .error "File path cannot be empty"
  else if path.data.contains (Char.ofNat 0) then .error "File path cannot contain null bytes"
  else if path.data.head? == some (Char.ofNat 47) then .error "File path must be relative"
  else .ok ()

/-- `validate_ref(ref)`. -/
def validate_ref (ref : String) : Except String Unit :=
  if ref == "" then .error "Git ref cannot be empty"
  else if ref.data.contains (Char.ofNat 0) then .error "Git ref cannot contain null bytes"
  else .ok ()

-- ## Python exceptions raised by the catalog operations

/-- The exception kinds the modelled operations can raise
(`ValueError` is the ValidationError of the spec; `RuntimeError` the
RemoteOperationError). -/
inductive PyErr where
  | valueError (msg : String)
  | runtimeError (msg : String)
  | typeError (msg : String)
  | attributeError (msg : String)
  | indexError (msg : String)
  | keyError (msg : String)

-- ## Dispatcher (`request` in `src/gh/request.py`)

/-- Outcome of the external transport `ctx.dispatch` call:
`response = some b` models a response object carrying body `b`
(`JSON.null` for an empty 204 body); `none` models a missing response
object. -/
structure TransportResp where
  success : Bool
  response : Option JSON := none
  errorMsg : Option String := none

/-- `GhResult` (`src/gh/types.py`): raw API result wrapper. -/
structure GhResult where
  success : Bool
  data : JSON := .null
  error : Option String := none

/-- One outbound request record: `(method, path, body)` handed to the
transport. -/
structure Req where
  method : String
  path : String
  body : Option JSON := none

/-- `request(method, path, body)`: normalize the transport outcome —
success with a response object wraps its body, anything else is a
failure carrying the transport message or the generic fallback. -/
def request (t : TransportResp) : GhResult :=
  match t.response, t.success with
  | some b, true => { success := true, data := b }
  | _, _ => { success := false, error := some (t.errorMsg.getD "Request failed") }

/-- The canned transport outcome consumed by the n-th dispatch of an
operation; a missing oracle entry behaves as a failed transport call. -/
def oracleAt (oracle : List TransportResp) (i : Nat) : TransportResp :=
  oracle.getD i { success := false }

/-- Python `msg or fallback` on a `str | None` message. -/
def pyOr (x : Option String) (y : String) : String :=
  match x with
  | some s => if s == "" then y else s
  | none => y

/-- Python truthiness of an `int | None` argument (`if run_id:`). -/
def truthyOptInt : Option Int → Bool
  | none => false
  | some n => n != 0

/-- Python truthiness of a `str | None` argument (`if branch:`). -/
def truthyOptStr : Option String → Bool
  | none => false
  | some s => s != ""

/-- Python truthiness of a `list | None` argument (`if labels:`). -/
def truthyOptList (o : Option (List String)) : Bool :=
  match o with
  | none => false
  | some l => !l.isEmpty

/-- Contiguous-substring test on character lists (Python `sub in s`). -/
def charsInfixOf (needle hay : List Char) : Bool :=
  if needle.isPrefixOf hay then true
  else
    match hay with
    | [] => false
    | _ :: t => charsInfixOf needle t

/-- Python `needle in container` for the JSON-like values the list-issues
filter can see: key test on dicts, equality scan on lists, substring test
on strings, `TypeError` otherwise. -/
def pyContains (needle : String) (container : JSON) : Except PyErr Bool :=
  match container with
  | .obj kvs => .ok (hasKey kvs needle)
  | .arr xs => .ok (xs.any (fun e => match e with | .str t => t == needle | _ => false))
  | .str s => .ok (charsInfixOf needle.data s.data)
  | _ => .error (.typeError "argument is not iterable")

/-- Python `v[0]`. -/
def pyIndex0 (v : JSON) : Except PyErr JSON :=
  match v with
  | .arr (x :: _) => .ok x
  | .arr [] => .error (.indexError "list index out of range")
  | .str s =>
      match s.data with
      | c :: _ => .ok (.str (String.singleton c))
      | [] => .error (.indexError "string index out of range")
  | .obj _ => .error (.keyError "0")
  | _ => .error (.typeError "object is not subscriptable")

/-- `v.get(k)` where `v` may not be a dict (`AttributeError` then). -/
def dictGetE (v : JSON) (k : String) : Except PyErr JSON :=
  match v with
  | .obj _ => .ok (dictGet v k)
  | _ => .error (.attributeError "object has no attribute get")

/-- Python `for _ in v` producing the element sequence, `TypeError` on
non-iterables. -/
def pyIter (v : JSON) : Except PyErr (List JSON) :=
  match v with
  | .arr xs => .ok xs
  | .str s => .ok (s.data.map (fun c => .str (String.singleton c)))
  | .obj kvs => .ok (kvs.map (fun kv => .str kv.1))
  | _ => .error (.typeError "object is not iterable")

-- ## Typed result records (`src/gh/types.py`)

/-- `IssueInfo`. -/
structure IssueInfo where
  number : Int
  title : String
  state : String
  author : Option String := none
  labels : List String := []
  created_at : Option String := none

/-- `RepoInfo` (`private` is a Lean keyword; the field is `private_`). -/
structure RepoInfo where
  name : String
  full_name : String
  description : Option String := none
  private_ : Bool := false
  stars : Int := 0
  language : Option String := none
  default_branch : String := "main"
  updated_at : Option String := none

/-- `PrInfo`. -/
structure PrInfo where
  number : Int
  title : String
  state : String
  head : String
  base : String
  author : Option String := none
  draft : Bool := false
  mergeable : Option Bool := none

/-- `PrFileInfo`. -/
structure PrFileInfo where
  filename : String
  status : String
  additions : Int := 0
  deletions : Int := 0
  changes : Int := 0

/-- `CommitInfo`. -/
structure CommitInfo where
  sha : String
  message : String
  author : Option String := none
  date : Option String := none

/-- `CompareInfo`. -/
structure CompareInfo where
  status : String
  ahead_by : Int := 0
  behind_by : Int := 0
  total_commits : Int := 0
  files : List PrFileInfo := []
  commits : List CommitInfo := []

/-- `WorkflowJobStep`. -/
structure WorkflowJobStep where
  name : String
  status : String
  conclusion : Option String := none
  number : Int := 0

/-- `WorkflowJobInfo`. -/
structure WorkflowJobInfo where
  id : Int
  name : String
  status : String
  conclusion : Option String := none
  steps : List WorkflowJobStep := []

/-- `CiDiagnosisInfo`. -/
structure CiDiagnosisInfo where
  run_id : Int
  run_name : Option String
  status : Option String
  conclusion : Option String
  branch : Option String
  jobs : List WorkflowJobInfo := []
  failed_jobs : List WorkflowJobInfo := []

-- ## Result parsers

/-- `_str` applied to a `str | None` Python value (not a JSON value):
`None` yields the default `""`. -/
def strOfOpt (o : Option String) : String := o.getD ""

/-- `_parse_issue(raw)` (`src/tools/issues.py`), on a dict. -/
def parse_issue (raw : JSON) : IssueInfo :=
  { number := pyInt (dictGet raw "number")
  , title := pyStr (dictGet raw "title")
  , state := pyStr (dictGet raw "state")
  , author := nestedStr (dictGet raw "user") "login"
  , labels := pyLabels (dictGet raw "labels")
  , created_at := pyOptStr (dictGet raw "created_at") }

/-- `_parse_issue` on an arbitrary value: non-dicts raise
`AttributeError` at the first `.get` access. -/
def parseIssueE (raw : JSON) : Except PyErr IssueInfo :=
  match raw with
  | .obj _ => .ok (parse_issue raw)
  | _ => .error (.attributeError "object has no attribute get")

/-- `_parse_repo(raw)` (`src/tools/repos.py`), on a dict. -/
def parse_repo (raw : JSON) : RepoInfo :=
  { name := pyStr (dictGet raw "name")
  , full_name := pyStr (dictGet raw "full_name")
  , description := pyOptStr (dictGet raw "description")
  , private_ := pyBool (dictGet raw "private")
  , stars := pyInt (dictGet raw "stargazers_count")
  , language := pyOptStr (dictGet raw "language")
  , default_branch := pyStr (dictGet raw "default_branch") "main"
  , updated_at := pyOptStr (dictGet raw "updated_at") }

/-- `_parse_pr(raw)` (`src/tools/pulls.py`), on a dict. -/
def parse_pr (raw : JSON) : PrInfo :=
  { number := pyInt (dictGet raw "number")
  , title := pyStr (dictGet raw "title")
  , state := pyStr (dictGet raw "state")
  , head := strOfOpt (nestedStr (dictGet raw "head") "ref")
  , base := strOfOpt (nestedStr (dictGet raw "base") "ref")
  , author := nestedStr (dictGet raw "user") "login"
  , draft := pyBool (dictGet raw "draft")
  , mergeable := match dictGet raw "mergeable" with | .bool b => some b | _ => none }

/-- One step of `_parse_job`: each raw step must answer `.get`. -/
def parseStep (step : JSON) : Except PyErr WorkflowJobStep :=
  match step with
  | .obj _ => .ok
      { name := pyStr (dictGet step "name")
      , status := pyStr (dictGet step "status")
      , conclusion := pyOptStr (dictGet step "conclusion")
      , number := pyInt (dictGet step "number") }
  | _ => .error (.attributeError "object has no attribute get")

/-- `_parse_job(raw)` (`src/tools/actions.py`): steps default to the
empty list when absent or not a list, then map through the step
coercions. -/
def parse_job (raw : JSON) : Except PyErr WorkflowJobInfo :=
  match raw with
  | .obj _ => do
      let rawSteps := match dictGet raw "steps" with | .arr xs => xs | _ => []
      let steps ← rawSteps.mapM parseStep
      .ok
        { id := pyInt (dictGet raw "id")
        , name := pyStr (dictGet raw "name")
        , status := pyStr (dictGet raw "status")
        , conclusion := pyOptStr (dictGet raw "conclusion")
        , steps := steps }
  | _ => .error (.attributeError "object has no attribute get")

/-- `PrFileInfo` construction of `gh_compare` for one `files` entry. -/
def parsePrFile (entry : JSON) : Except PyErr PrFileInfo :=
  match entry with
  | .obj _ => .ok
      { filename := pyStr (dictGet entry "filename")
      , status := pyStr (dictGet entry "status")
      , additions := pyInt (dictGet entry "additions")
      , deletions := pyInt (dictGet entry "deletions")
      , changes := pyInt (dictGet entry "changes") }
  | _ => .error (.attributeError "object has no attribute get")

/-- `CommitInfo` construction of `gh_compare` for one `commits` entry:
actor login from `entry.author.login`, git identity from
`entry.commit.author`. -/
def parseCompareCommit (entry : JSON) : Except PyErr CommitInfo :=
  match entry with
  | .obj _ =>
      let rawCommit := dictGet entry "commit"
      let commitObj := if rawCommit.isObj then rawCommit else .obj []
      let rawAuthor := dictGet commitObj "author"
      let commitAuthor := if rawAuthor.isObj then rawAuthor else .obj []
      .ok
        { sha := pyStr (dictGet entry "sha")
        , message := pyStr (dictGet commitObj "message")
        , author := nestedStr (dictGet entry "author") "login"
        , date := pyOptStr (dictGet commitAuthor "date") }
  | _ => .error (.attributeError "object has no attribute get")

-- ## Request paths used by the modelled operations

/-- `f"/repos/{owner}/{repo}/actions/runs"`. -/
def runsBase (owner repo : String) : String :=
  "/repos/" ++ owner ++ "/" ++ repo ++ "/actions/runs"

/-- Path of the single-run fetch of `gh_ci_diagnosis`. -/
def runFetchPath (owner repo : String) (rid : Int) : String :=
  runsBase owner repo ++ ("/" ++ toString rid)

/-- Path of the branch-filtered run-list fetch of `gh_ci_diagnosis`. -/
def branchListPath (owner repo branch : String) : String :=
  build_url (runsBase owner repo) [("branch", some (.s branch)), ("per_page", some (.i 1))]

/-- Path of the jobs fetch of `gh_ci_diagnosis`. -/
def jobsFetchPath (owner repo : String) (rid : Int) : String :=
  runsBase owner repo ++ ("/" ++ (toString rid ++ "/jobs"))

/-- Python f-string rendering of an `int | str` argument. -/
def pyFStr : PVal → String
  | .s v => v
  | .i v => toString v
  | .b v => if v then "True" else "False"

-- ## Compound orchestration (`gh_ci_diagnosis`, `src/tools/actions.py`)

/-- Construction of the final `CiDiagnosisInfo` of `gh_ci_diagnosis`:
run metadata from the resolved run, all jobs, and `failed_jobs` as the
filter of `jobs` by `conclusion == "failure"`. -/
def mkCiDiagnosisInfo (run : JSON) (resolved : Int) (jobs : List WorkflowJobInfo) :
    CiDiagnosisInfo :=
  { run_id := resolved
  , run_name := pyOptStr (dictGet run "name")
  , status := pyOptStr (dictGet run "status")
  , conclusion := pyOptStr (dictGet run "conclusion")
  , branch := pyOptStr (dictGet run "head_branch")
  , jobs := jobs
  , failed_jobs := jobs.filter (fun j => j.conclusion == some "failure") }

/-- Step 1 of `gh_ci_diagnosis`: resolve the run.  By id when `run_id`
is truthy, else by branch-filtered list when `branch` is truthy, else
fail before any dispatch. -/
def ciResolveRun (owner repo : String) (run_id : Option Int) (branch : Option String)
    (oracle : List TransportResp) : Except PyErr JSON × List Req :=
  if truthyOptInt run_id then
    let rid := run_id.getD 0
    let req : Req := { method := "GET", path := runFetchPath owner repo rid }
    if (request (oracleAt oracle 0)).success then
      (.ok (if (request (oracleAt oracle 0)).data.isObj then (request (oracleAt oracle 0)).data else .obj []), [req])
    else
      (.error (.runtimeError (pyOr (request (oracleAt oracle 0)).error ("Failed to get run " ++ toString rid))), [req])
  else if truthyOptStr branch then
    let b := branch.getD ""
    let req : Req := { method := "GET", path := branchListPath owner repo b }
    if (request (oracleAt oracle 0)).success then
      let runs := if (request (oracleAt oracle 0)).data.isObj then dictGetD (request (oracleAt oracle 0)).data "workflow_runs" (.arr []) else .arr []
      if !pyTruthy runs then
        (.error (.runtimeError ("No workflow runs found for branch " ++ pyReprStr b)), [req])
      else
        match pyIndex0 runs with
        | .ok r => (.ok r, [req])
        | .error e => (.error e, [req])
    else
      (.error (.runtimeError (pyOr (request (oracleAt oracle 0)).error ("No runs found for branch " ++ pyReprStr b))), [req])
  else
    (.error (.runtimeError "Provide either run_id or branch"), [])

/-- Step 2 + 3 of `gh_ci_diagnosis`: read the resolved run id, fetch the
job list for it, parse the jobs, and partition by conclusion. -/
def ciFetchJobs (owner repo : String) (run : JSON) (reqs1 : List Req)
    (oracle : List TransportResp) : Except PyErr CiDiagnosisInfo × List Req :=
  match dictGetE run "id" with
  | .error e => (.error e, reqs1)
  | .ok idVal =>
    if (request (oracleAt oracle 1)).success then
      match pyIter (if (request (oracleAt oracle 1)).data.isObj then dictGetD (request (oracleAt oracle 1)).data "jobs" (.arr []) else .arr []) >>= (List.mapM parse_job) with
      | .error e =>
          (.error e, reqs1 ++ [{ method := "GET", path := jobsFetchPath owner repo (pyInt idVal) }])
      | .ok jobs =>
          (.ok (mkCiDiagnosisInfo run (pyInt idVal) jobs),
           reqs1 ++ [{ method := "GET", path := jobsFetchPath owner repo (pyInt idVal) }])
    else
      (.error (.runtimeError (pyOr (request (oracleAt oracle 1)).error "Failed to list jobs")),
       reqs1 ++ [{ method := "GET", path := jobsFetchPath owner repo (pyInt idVal) }])

/-- `gh_ci_diagnosis(owner, repo, run_id, branch)`: validate, resolve the
run (by id when truthy, else by branch, else fail), fetch the jobs of the
resolved run, and partition them by `conclusion == "failure"`.  The
second component is the trace of dispatched requests. -/
def gh_ci_diagnosis (owner repo : String) (run_id : Option Int) (branch : Option String)
    (oracle : List TransportResp) : Except PyErr CiDiagnosisInfo × List Req :=
  match validate_owner_repo owner repo with
  | .error m => (.error (.valueError m), [])
  | .ok _ =>
    match ciResolveRun owner repo run_id branch oracle with
    | (.error e, reqs) => (.error e, reqs)
    | (.ok run, reqs1) => ciFetchJobs owner repo run reqs1 oracle

-- ## Issue operations (`src/tools/issues.py`)

/-- The filter-and-parse comprehension of `gh_list_issues`:
`[_parse_issue(item) for item in items if "pull_request" not in item]`,
evaluated left to right, aborting at the first raised exception. -/
def listIssuesFilterParse : List JSON → Except PyErr (List IssueInfo)
  | [] => .ok []
  | item :: rest => do
      let c ← pyContains "pull_request" item
      if c then listIssuesFilterParse rest
      else do
        let i ← parseIssueE item
        let tl ← listIssuesFilterParse rest
        pure (i :: tl)

/-- `gh_list_issues`. -/
def gh_list_issues (owner repo state : String) (labels assignee : Option String)
    (per_page page : Int) (oracle : List TransportResp) :
    Except PyErr (List IssueInfo) × List Req :=
  match validate_owner_repo owner repo with
  | .error m => (.error (.valueError m), [])
  | .ok _ =>
    let url := build_url ("/repos/" ++ owner ++ "/" ++ repo ++ "/issues")
      [("state", some (.s state)), ("labels", labels.map PVal.s), ("assignee", assignee.map PVal.s),
       ("per_page", some (.i per_page)), ("page", some (.i page))]
    let req : Req := { method := "GET", path := url }
    let resp := request (oracleAt oracle 0)
    if resp.success then
      let items := match resp.data with | .arr xs => xs | _ => []
      (listIssuesFilterParse items, [req])
    else
      (.error (.runtimeError (pyOr resp.error "Failed to list issues")), [req])

/-- `gh_get_issue`. -/
def gh_get_issue (owner repo : String) (issue_number : Int) (oracle : List TransportResp) :
    Except PyErr IssueInfo × List Req :=
  match validate_owner_repo owner repo with
  | .error m => (.error (.valueError m), [])
  | .ok _ =>
    let req : Req :=
      { method := "GET"
      , path := "/repos/" ++ owner ++ "/" ++ repo ++ "/issues/" ++ toString issue_number }
    let resp := request (oracleAt oracle 0)
    if resp.success then
      (.ok (parse_issue (if resp.data.isObj then resp.data else .obj [])), [req])
    else
      (.error (.runtimeError (pyOr resp.error "Failed to get issue")), [req])

/-- Request body of `gh_create_issue`: `title` always, then each truthy
optional argument in source order. -/
def createIssuePayload (title : String) (body : Option String)
    (labels assignees : Option (List String)) : List (String × JSON) :=
  [("title", .str title)]
    ++ (if truthyOptStr body then [("body", .str (body.getD ""))] else [])
    ++ (if truthyOptList labels then [("labels", .arr ((labels.getD []).map JSON.str))] else [])
    ++ (if truthyOptList assignees then [("assignees", .arr ((assignees.getD []).map JSON.str))] else [])

/-- `gh_create_issue`. -/
def gh_create_issue (owner repo title : String) (body : Option String)
    (labels assignees : Option (List String)) (oracle : List TransportResp) :
    Except PyErr IssueInfo × List Req :=
  match validate_owner_repo owner repo with
  | .error m => (.error (.valueError m), [])
  | .ok _ =>
    let payload := createIssuePayload title body labels assignees
    let req : Req :=
      { method := "POST"
      , path := "/repos/" ++ owner ++ "/" ++ repo ++ "/issues"
      , body := some (.obj payload) }
    let resp := request (oracleAt oracle 0)
    if resp.success then
      (.ok (parse_issue (if resp.data.isObj then resp.data else .obj [])), [req])
    else
      (.error (.runtimeError (pyOr resp.error "Failed to create issue")), [req])

/-- One conditionally present payload field: `if arg is not None:
payload[k] = arg`. -/
def optField (k : String) (o : Option JSON) : List (String × JSON) :=
  match o with
  | some v => [(k, v)]
  | none => []

/-- Request body of `gh_update_issue`: each field included exactly when
the argument `is not None`, in source order. -/
def updateIssuePayload (title body state : Option String)
    (labels assignees : Option (List String)) : List (String × JSON) :=
  optField "title" (title.map JSON.str)
    ++ optField "body" (body.map JSON.str)
    ++ optField "state" (state.map JSON.str)
    ++ optField "labels" (labels.map (fun l => JSON.arr (l.map JSON.str)))
    ++ optField "assignees" (assignees.map (fun a => JSON.arr (a.map JSON.str)))

/-- `gh_update_issue`. -/
def gh_update_issue (owner repo : String) (issue_number : Int)
    (title body state : Option String) (labels assignees : Option (List String))
    (oracle : List TransportResp) : Except PyErr IssueInfo × List Req :=
  match validate_owner_repo owner repo with
  | .error m => (.error (.valueError m), [])
  | .ok _ =>
    let payload := updateIssuePayload title body state labels assignees
    let req : Req :=
      { method := "PATCH"
      , path := "/repos/" ++ owner ++ "/" ++ repo ++ "/issues/" ++ toString issue_number
      , body := some (.obj payload) }
    let resp := request (oracleAt oracle 0)
    if resp.success then
      (.ok (parse_issue (if resp.data.isObj then resp.data else .obj [])), [req])
    else
      (.error (.runtimeError (pyOr resp.error "Failed to update issue")), [req])

-- ## Repository operations (`src/tools/repos.py`)

/-- `gh_get_repo`. -/
def gh_get_repo (owner repo : String) (oracle : List TransportResp) :
    Except PyErr RepoInfo × List Req :=
  match validate_owner_repo owner repo with
  | .error m => (.error (.valueError m), [])
  | .ok _ =>
    let req : Req := { method := "GET", path := "/repos/" ++ owner ++ "/" ++ repo }
    let resp := request (oracleAt oracle 0)
    if resp.success then
      (.ok (parse_repo (if resp.data.isObj then resp.data else .obj [])), [req])
    else
      (.error (.runtimeError (pyOr resp.error "Failed to get repo")), [req])

/-- `gh_delete_branch`. -/
def gh_delete_branch (owner repo branch : String) (oracle : List TransportResp) :
    Except PyErr GhResult × List Req :=
  match validate_owner_repo owner repo with
  | .error m => (.error (.valueError m), [])
  | .ok _ =>
    if branch == "" then (.error (.valueError "Branch name cannot be empty"), [])
    else
      (.ok (request (oracleAt oracle 0)),
       [ { method := "DELETE"
         , path := "/repos/" ++ owner ++ "/" ++ repo ++ "/git/refs/heads/" ++ branch } ])

/-- `gh_compare`: validates owner and repo only; `base` and `head` are
interpolated into the path as given. -/
def gh_compare (owner repo base head : String) (oracle : List TransportResp) :
    Except PyErr CompareInfo × List Req :=
  match validate_owner_repo owner repo with
  | .error m => (.error (.valueError m), [])
  | .ok _ =>
    let req : Req :=
      { method := "GET"
      , path := "/repos/" ++ owner ++ "/" ++ repo ++ "/compare/" ++ base ++ "..." ++ head }
    let resp := request (oracleAt oracle 0)
    if resp.success then
      let data := if resp.data.isObj then resp.data else .obj []
      let rawFiles := match dictGet data "files" with | .arr xs => xs | _ => []
      match rawFiles.mapM parsePrFile with
      | .error e => (.error e, [req])
      | .ok files =>
        let rawCommits := match dictGet data "commits" with | .arr xs => xs | _ => []
        match rawCommits.mapM parseCompareCommit with
        | .error e => (.error e, [req])
        | .ok commits =>
          (.ok { status := pyStr (dictGet data "status")
               , ahead_by := pyInt (dictGet data "ahead_by")
               , behind_by := pyInt (dictGet data "behind_by")
               , total_commits := pyInt (dictGet data "total_commits")
               , files := files, commits := commits }, [req])
    else
      (.error (.runtimeError (pyOr resp.error ("Failed to compare " ++ base ++ "..." ++ head))), [req])

-- ## Pull request operations (`src/tools/pulls.py`)

/-- `gh_get_pr`. -/
def gh_get_pr (owner repo : String) (pr_number : Int) (oracle : List TransportResp) :
    Except PyErr PrInfo × List Req :=
  match validate_owner_repo owner repo with
  | .error m => (.error (.valueError m), [])
  | .ok _ =>
    let req : Req :=
      { method := "GET"
      , path := "/repos/" ++ owner ++ "/" ++ repo ++ "/pulls/" ++ toString pr_number }
    let resp := request (oracleAt oracle 0)
    if resp.success then
      (.ok (parse_pr (if resp.data.isObj then resp.data else .obj [])), [req])
    else
      (.error (.runtimeError (pyOr resp.error "Failed to get PR")), [req])

-- ## File operations (`src/tools/files.py`)

/-- `gh_get_file`. -/
def gh_get_file (owner repo path : String) (ref : Option String)
    (oracle : List TransportResp) : Except PyErr GhResult × List Req :=
  match validate_owner_repo owner repo with
  | .error m => (.error (.valueError m), [])
  | .ok _ =>
    match validate_path path with
    | .error m => (.error (.valueError m), [])
    | .ok _ =>
      let url := build_url ("/repos/" ++ owner ++ "/" ++ repo ++ "/contents/" ++ path)
        [("ref", ref.map PVal.s)]
      (.ok (request (oracleAt oracle 0)), [{ method := "GET", path := url }])

/-- Request body of `gh_put_file`: `message`/`content` always, then each
truthy optional argument. -/
def putFilePayload (message content_base64 : String) (branch sha : Option String) :
    List (String × JSON) :=
  [("message", .str message), ("content", .str content_base64)]
    ++ (if truthyOptStr branch then [("branch", .str (branch.getD ""))] else [])
    ++ (if truthyOptStr sha then [("sha", .str (sha.getD ""))] else [])

/-- `gh_put_file`. -/
def gh_put_file (owner repo path content_base64 message : String)
    (branch sha : Option String) (oracle : List TransportResp) :
    Except PyErr GhResult × List Req :=
  match validate_owner_repo owner repo with
  | .error m => (.error (.valueError m), [])
  | .ok _ =>
    match validate_path path with
    | .error m => (.error (.valueError m), [])
    | .ok _ =>
      let body := putFilePayload message content_base64 branch sha
      (.ok (request (oracleAt oracle 0)),
       [ { method := "PUT"
         , path := "/repos/" ++ owner ++ "/" ++ repo ++ "/contents/" ++ path
         , body := some (.obj body) } ])

-- ## Commit operations (`src/tools/commits.py`)

/-- `gh_get_commit_status`. -/
def gh_get_commit_status (owner repo ref : String) (oracle : List TransportResp) :
    Except PyErr GhResult × List Req :=
  match validate_owner_repo owner repo with
  | .error m => (.error (.valueError m), [])
  | .ok _ =>
    match validate_ref ref with
    | .error m => (.error (.valueError m), [])
    | .ok _ =>
      (.ok (request (oracleAt oracle 0)),
       [{ method := "GET", path := "/repos/" ++ owner ++ "/" ++ repo ++ "/commits/" ++ ref ++ "/status" }])

-- ## Workflow dispatch (`src/tools/actions.py`)

/-- Python truthiness of a `dict | None` argument (`if inputs:`). -/
def truthyInputs : Option (List (String × String)) → Bool
  | none => false
  | some l => !l.isEmpty

/-- Request body of `gh_dispatch_workflow`: `ref` always, `inputs` when
truthy. -/
def dispatchWorkflowBody (ref : String) (inputs : Option (List (String × String))) :
    List (String × JSON) :=
  [("ref", .str ref)]
    ++ (if truthyInputs inputs then
          [("inputs", .obj ((inputs.getD []).map (fun kv => (kv.1, JSON.str kv.2))))]
        else [])

/-- `gh_dispatch_workflow`: returns the dispatcher result directly
(204 success responses surface as a success `GhResult`). -/
def gh_dispatch_workflow (owner repo : String) (workflow_id : PVal) (ref : String)
    (inputs : Option (List (String × String))) (oracle : List TransportResp) :
    Except PyErr GhResult × List Req :=
  match validate_owner_repo owner repo with
  | .error m => (.error (.valueError m), [])
  | .ok _ =>
    let body := dispatchWorkflowBody ref inputs
    (.ok (request (oracleAt oracle 0)),
     [ { method := "POST"
       , path := "/repos/" ++ owner ++ "/" ++ repo ++ "/actions/workflows/" ++ pyFStr workflow_id ++ "/dispatches"
       , body := some (.obj body) } ])

-- # Helper lemmas

/-- Key membership distributes over payload concatenation. -/
theorem hasKey_append (a b : List (String × JSON)) (k : String) :
    hasKey (a ++ b) k = (hasKey a k || hasKey b k) := by
  simp [hasKey, List.any_append]

/-- Key membership of a conditionally included field. -/
theorem hasKey_if (c : Bool) (l : List (String × JSON)) (k : String) :
    hasKey (if c then l else []) k = (c && hasKey l k) := by
  cases c <;> simp [hasKey]

/-- Key membership of a single optionally present field. -/
theorem hasKey_optField (k : String) (o : Option JSON) (key : String) :
    hasKey (optField k o) key = (o.isSome && (k == key)) := by
  cases o <;> simp [optField, hasKey]

/-- Key membership of the empty payload. -/
theorem hasKey_nil (k : String) : hasKey [] k = false := rfl

/-- Key membership unfolds one payload entry at a time. -/
theorem hasKey_cons (k1 : String) (v : JSON) (rest : List (String × JSON)) (k : String) :
    hasKey ((k1, v) :: rest) k = ((k1 == k) || hasKey rest k) := by
  simp [hasKey]

/-- Whether a JSON value is a dict carrying key `k`. -/
def hasKeyJ (x : JSON) (k : String) : Bool :=
  match x with
  | .obj kvs => hasKey kvs k
  | _ => false

-- # Claim theorems

/-- C7: the coercion layer is total with documented defaults:
`_int(None, default=5) = 5`, `_int("not a number", default=5) = 5`,
`_bool(None) = False`, and `_labels` keeps, in original order, exactly
the dict entries with a truthy name. -/
theorem coercion_defaults_eval :
    pyInt JSON.null 5 = 5 ∧
    pyInt (JSON.str "not a number") 5 = 5 ∧
    pyBool JSON.null = false ∧
    pyLabels (JSON.arr [JSON.obj [("name", JSON.str "bug")],
      JSON.obj [("name", JSON.null)], JSON.num 42]) = ["bug"] :=
  ⟨rfl, rfl, rfl, rfl⟩

/-- C9: `build_url` drops absent entries, renders booleans as lowercase
tokens, returns the endpoint unchanged when the filtered parameter set is
empty, otherwise appends `?` and the encoded query string; with the two
concrete examples of the spec. -/
theorem build_url_omission :
    (∀ e : String, build_url e [] = e) ∧
    (∀ (e k : String) (ps : List (String × Option PVal)),
        build_url e ((k, none) :: ps) = build_url e ps) ∧
    (∀ b : Bool, renderParam (.b b) = if b then "true" else "false") ∧
    (∀ n : Int, renderParam (.i n) = toString n) ∧
    (∀ s : String, renderParam (.s s) = s) ∧
    (∀ (e : String) (ps : List (String × Option PVal)),
        ps.filterMap (fun kv => kv.2.map (fun v => (kv.1, renderParam v))) ≠ [] →
        build_url e ps
          = e ++ "?" ++ urlencode (ps.filterMap (fun kv => kv.2.map (fun v => (kv.1, renderParam v))))) ∧
    build_url "/x" [("a", none), ("b", some (.i 1)), ("c", some (.b true))] = "/x?b=1&c=true" ∧
    build_url "/x" [] = "/x" := by
  refine ⟨fun e => rfl, fun e k ps => rfl, fun b => by cases b <;> rfl, fun n => rfl,
    fun s => rfl, ?_, rfl, rfl⟩
  intro e ps h
  unfold build_url
  have : (ps.filterMap (fun kv => kv.2.map (fun v => (kv.1, renderParam v)))).isEmpty = false := by
    simpa [List.isEmpty_iff] using h
  simp [this]

/-- Witness for C9 at a concrete nonempty parameter set. -/
theorem build_url_omission_witness :
    ([("b", some (PVal.i 1))].filterMap
        (fun kv => kv.2.map (fun v => (kv.1, renderParam v))) ≠ []) ∧
    build_url "/x" [("b", some (PVal.i 1))]
      = "/x" ++ "?" ++ urlencode ([("b", some (PVal.i 1))].filterMap
          (fun kv => kv.2.map (fun v => (kv.1, renderParam v)))) :=
  ⟨by decide, build_url_omission.2.2.2.2.2.1 "/x" [("b", some (PVal.i 1))] (by decide)⟩

/-- C4 counterexample: the invalid path `"/etc"` is rejected with the
fixed message `"File path must be relative"`, which does not contain the
offending value as a substring. -/
theorem validate_path_message_omits_value :
    validate_path "/etc" = .error "File path must be relative" ∧
    charsInfixOf "/etc".data "File path must be relative".data = false :=
  ⟨rfl, rfl⟩

/-- C4 amended: `validate_owner` and `validate_repo` embed the repr of
the offending value in their messages; `validate_path` and
`validate_ref` fail with one of a fixed set of messages that name the
violated constraint but not the value. -/
theorem guard_error_message_forms (s t p r : String)
    (hs : validate_owner s ≠ .ok ()) (ht : validate_repo t ≠ .ok ())
    (hp : validate_path p ≠ .ok ()) (hr : validate_ref r ≠ .ok ()) :
    validate_owner s = .error ("Invalid GitHub owner: " ++ pyReprStr s) ∧
    validate_repo t = .error ("Invalid repository name: " ++ pyReprStr t) ∧
    (validate_path p = .error "File path cannot be empty" ∨
     validate_path p = .error "File path cannot contain null bytes" ∨
     validate_path p = .error "File path must be relative") ∧
    (validate_ref r = .error "Git ref cannot be empty" ∨
     validate_ref r = .error "Git ref cannot contain null bytes") := by
  refine ⟨?_, ?_, ?_, ?_⟩
  · unfold validate_owner at hs ⊢
    split_ifs at hs ⊢ with h
    · rfl
    · exact absurd rfl hs
  · unfold validate_repo at ht ⊢
    split_ifs at ht ⊢ with h
    · rfl
    · exact absurd rfl ht
  · unfold validate_path at hp ⊢
    split_ifs at hp ⊢ with h1 h2 h3
    · exact Or.inl rfl
    · exact Or.inr (Or.inl rfl)
    · exact Or.inr (Or.inr rfl)
    · exact absurd rfl hp
  · unfold validate_ref at hr ⊢
    split_ifs at hr ⊢ with h1 h2
    · exact Or.inl rfl
    · exact Or.inr rfl
    · exact absurd rfl hr

/-- Witness for the amended C4 at concrete invalid inputs. -/
theorem guard_error_message_forms_witness :
    validate_owner "-x" = .error ("Invalid GitHub owner: " ++ pyReprStr "-x") ∧
    validate_repo "a b" = .error ("Invalid repository name: " ++ pyReprStr "a b") ∧
    (validate_path "/e" = .error "File path cannot be empty" ∨
     validate_path "/e" = .error "File path cannot contain null bytes" ∨
     validate_path "/e" = .error "File path must be relative") ∧
    (validate_ref "" = .error "Git ref cannot be empty" ∨
     validate_ref "" = .error "Git ref cannot contain null bytes") :=
  guard_error_message_forms "-x" "a b" "/e" ""
    (fun h => by exact Except.noConfusion h)
    (fun h => by exact Except.noConfusion h)
    (fun h => by exact Except.noConfusion h)
    (fun h => by exact Except.noConfusion h)

/-- C5 counterexample: `gh_create_issue` with the supplied empty-string
body dispatches a payload without a `body` field (truthiness, not
absence, decides inclusion). -/
theorem create_issue_empty_body_omitted :
    (gh_create_issue "o" "r" "t" (some "") none none
        [{ success := true, response := some (.obj []) }]).2
      = [{ method := "POST", path := "/repos/o/r/issues",
           body := some (.obj [("title", JSON.str "t")]) }] ∧
    hasKey (createIssuePayload "t" (some "") none none) "body" = false :=
  ⟨rfl, rfl⟩

/-- C5 amended: omitted optional arguments leave the payload field
unset; `gh_update_issue` includes a field exactly when the argument is
not `None`, while `gh_create_issue` and `gh_put_file` include an
optional field exactly when the argument is truthy (so supplied empty
strings and empty lists are also omitted). -/
theorem write_payload_field_presence
    (t : String) (ti body st : Option String) (ls asg : Option (List String))
    (msg content : String) (br sha : Option String) :
    hasKey (updateIssuePayload ti body st ls asg) "title" = ti.isSome ∧
    hasKey (updateIssuePayload ti body st ls asg) "body" = body.isSome ∧
    hasKey (updateIssuePayload ti body st ls asg) "state" = st.isSome ∧
    hasKey (updateIssuePayload ti body st ls asg) "labels" = ls.isSome ∧
    hasKey (updateIssuePayload ti body st ls asg) "assignees" = asg.isSome ∧
    hasKey (createIssuePayload t body ls asg) "title" = true ∧
    hasKey (createIssuePayload t body ls asg) "body" = truthyOptStr body ∧
    hasKey (createIssuePayload t body ls asg) "labels" = truthyOptList ls ∧
    hasKey (createIssuePayload t body ls asg) "assignees" = truthyOptList asg ∧
    hasKey (putFilePayload msg content br sha) "branch" = truthyOptStr br ∧
    hasKey (putFilePayload msg content br sha) "sha" = truthyOptStr sha := by
  simp [updateIssuePayload, createIssuePayload, putFilePayload,
    hasKey_append, hasKey_if, hasKey_optField, hasKey_cons, hasKey_nil, Option.isSome_map]

/-- C6: a successful dispatch whose response carries an empty body
surfaces from `gh_dispatch_workflow` and `gh_delete_branch` as
`GenericResult{success: true, data: null}` — not an error and not a
failure result. -/
theorem empty_body_success_generic_result (owner repo ref br : String) (wid : PVal)
    (inputs : Option (List (String × String))) (rest rest2 : List TransportResp)
    (ho : validate_owner_repo owner repo = .ok ()) (hb : br ≠ "") :
    (gh_dispatch_workflow owner repo wid ref inputs
        ({ success := true, response := some JSON.null } :: rest)).1
      = .ok { success := true, data := JSON.null, error := none } ∧
    (gh_delete_branch owner repo br
        ({ success := true, response := some JSON.null } :: rest2)).1
      = .ok { success := true, data := JSON.null, error := none } := by
  constructor
  · simp [gh_dispatch_workflow, ho, request, oracleAt]
  · simp [gh_delete_branch, ho, request, oracleAt, hb]

/-- Witness for C6 at concrete inputs. -/
theorem empty_body_success_generic_result_witness :
    (gh_dispatch_workflow "o" "r" (.s "ci.yml") "main" none
        [{ success := true, response := some JSON.null }]).1
      = .ok { success := true, data := JSON.null, error := none } ∧
    (gh_delete_branch "o" "r" "dev"
        [{ success := true, response := some JSON.null }]).1
      = .ok { success := true, data := JSON.null, error := none } :=
  empty_body_success_generic_result "o" "r" "main" "dev" (.s "ci.yml") none [] [] rfl
    (fun h => by exact absurd h (by decide))

/-- C10: when the dispatch succeeds but the payload is not a JSON
object, `gh_get_issue`, `gh_get_repo` and `gh_get_pr` do not raise: each
returns the record built entirely from the coercion defaults, identical
to parsing an empty object. -/
theorem get_ops_nonobject_defaults (owner repo : String) (n m : Int) (d : JSON)
    (rest1 rest2 rest3 : List TransportResp)
    (ho : validate_owner_repo owner repo = .ok ()) (hd : d.isObj = false) :
    (gh_get_issue owner repo n ({ success := true, response := some d } :: rest1)).1
      = .ok { number := 0, title := "", state := "", author := none, labels := [],
              created_at := none } ∧
    (gh_get_repo owner repo ({ success := true, response := some d } :: rest2)).1
      = .ok { name := "", full_name := "", description := none, private_ := false,
              stars := 0, language := none, default_branch := "main", updated_at := none } ∧
    (gh_get_pr owner repo m ({ success := true, response := some d } :: rest3)).1
      = .ok { number := 0, title := "", state := "", head := "", base := "",
              author := none, draft := false, mergeable := none } ∧
    parse_issue (.obj [])
      = { number := 0, title := "", state := "", author := none,
          labels := [], created_at := none } := by
  refine ⟨?_, ?_, ?_, rfl⟩ <;>
    simp [gh_get_issue, gh_get_repo, gh_get_pr, ho, request, oracleAt, hd] <;> rfl

/-- Witness for C10 with an array payload. -/
theorem get_ops_nonobject_defaults_witness :
    (gh_get_issue "o" "r" 1 [{ success := true, response := some (.arr []) }]).1
      = .ok { number := 0, title := "", state := "", author := none, labels := [],
              created_at := none } ∧
    (gh_get_repo "o" "r" [{ success := true, response := some (.arr []) }]).1
      = .ok { name := "", full_name := "", description := none, private_ := false,
              stars := 0, language := none, default_branch := "main", updated_at := none } ∧
    (gh_get_pr "o" "r" 2 [{ success := true, response := some (.arr []) }]).1
      = .ok { number := 0, title := "", state := "", head := "", base := "",
              author := none, draft := false, mergeable := none } := by
  have h := get_ops_nonobject_defaults "o" "r" 1 2 (.arr []) [] [] [] rfl rfl
  exact ⟨h.1, h.2.1, h.2.2.1⟩

/-- Bind of a successful `Except` computation. -/
theorem except_bind_ok {ε α β : Type} (a : α) (f : α → Except ε β) :
    (Except.ok a : Except ε α) >>= f = f a := rfl

/-- C8 counterexample: a successful response list containing the
non-object entry `42` makes `gh_list_issues` raise a `TypeError` in the
membership test instead of including or excluding the entry. -/
theorem list_issues_nonobject_entry_raises :
    (gh_list_issues "o" "r" "open" none none 30 1
        [{ success := true, response := some (.arr [.num 42]) }]).1
      = .error (.typeError "argument is not iterable") := rfl

/-- C8 amended: for response lists all of whose entries are JSON
objects, `gh_list_issues` excludes exactly the entries carrying a
`pull_request` key and parses the rest in order; entries of other types
make the comprehension raise instead. -/
theorem list_issues_pull_request_partition (items : List JSON)
    (h : ∀ x ∈ items, x.isObj = true) :
    listIssuesFilterParse items
      = .ok ((items.filter (fun x => !hasKeyJ x "pull_request")).map parse_issue) ∧
    ∀ (owner repo st : String) (pp pg : Int) (rest : List TransportResp),
      validate_owner_repo owner repo = .ok () →
      (gh_list_issues owner repo st none none pp pg
          ({ success := true, response := some (.arr items) } :: rest)).1
        = listIssuesFilterParse items := by
  constructor
  · induction items with
    | nil => rfl
    | cons x rest ih =>
      have hx : x.isObj = true := h x (List.mem_cons_self x rest)
      have hr : ∀ y ∈ rest, y.isObj = true := fun y hy => h y (List.mem_cons_of_mem x hy)
      cases x with
      | obj kvs =>
        by_cases hk : hasKey kvs "pull_request" = true
        · simp [listIssuesFilterParse, pyContains, hasKeyJ, hk, except_bind_ok, ih hr]
        · simp [listIssuesFilterParse, pyContains, hasKeyJ, hk, except_bind_ok,
            parseIssueE, ih hr]
      | null => simp [JSON.isObj] at hx
      | bool b => simp [JSON.isObj] at hx
      | num n => simp [JSON.isObj] at hx
      | str s => simp [JSON.isObj] at hx
      | arr xs => simp [JSON.isObj] at hx
  · intro owner repo st pp pg rest hv
    simp [gh_list_issues, hv, request, oracleAt]

/-- Sample issue list for the C8 witness: one plain issue, one
pull-request entry. -/
def c8Items : List JSON :=
  [ .obj [("number", .num 1), ("title", .str "a")]
  , .obj [("pull_request", .obj []), ("number", .num 2)] ]

/-- Witness for the amended C8. -/
theorem list_issues_pull_request_partition_witness :
    listIssuesFilterParse c8Items
      = .ok ((c8Items.filter (fun x => !hasKeyJ x "pull_request")).map parse_issue) :=
  (list_issues_pull_request_partition c8Items (by decide)).1

/-- C3 counterexample: `gh_compare` interpolates the empty (invalid) ref
`""` into the request path and invokes the dispatcher once; no
ValidationError is raised. -/
theorem compare_dispatches_unvalidated_ref :
    (gh_compare "o" "r" "" "h" [{ success := false }]).2
      = [{ method := "GET", path := "/repos/o/r/compare/...h" }] ∧
    (gh_compare "o" "r" "" "h" [{ success := false }]).1
      = .error (.runtimeError "Request failed") ∧
    validate_ref "" = .error "Git ref cannot be empty" :=
  ⟨rfl, rfl, rfl⟩

/-- C3 amended: operations that invoke the guards fail with a
ValidationError and dispatch nothing on invalid input — owner/repo
everywhere (shown for `gh_compare`), path where `validate_path` is
called (shown for `gh_get_file`), ref where `validate_ref` is called
(shown for `gh_get_commit_status`); `gh_compare` interpolates its
`base`/`head` refs without ref validation. -/
theorem validation_before_dispatch_amended :
    (∀ (o r b hd : String) (oracle : List TransportResp) (m : String),
        validate_owner_repo o r = .error m →
        gh_compare o r b hd oracle = (.error (.valueError m), [])) ∧
    (∀ (o r p : String) (oref : Option String) (oracle : List TransportResp) (m : String),
        validate_owner_repo o r = .ok () → validate_path p = .error m →
        gh_get_file o r p oref oracle = (.error (.valueError m), [])) ∧
    (∀ (o r rf : String) (oracle : List TransportResp) (m : String),
        validate_owner_repo o r = .ok () → validate_ref rf = .error m →
        gh_get_commit_status o r rf oracle = (.error (.valueError m), [])) ∧
    (∀ (o r p c msg : String) (br sha : Option String) (oracle : List TransportResp) (m : String),
        validate_owner_repo o r = .ok () → validate_path p = .error m →
        gh_put_file o r p c msg br sha oracle = (.error (.valueError m), [])) := by
  refine ⟨?_, ?_, ?_, ?_⟩
  · intro o r b hd oracle m h
    simp [gh_compare, h]
  · intro o r p oref oracle m h1 h2
    simp [gh_get_file, h1, h2]
  · intro o r rf oracle m h1 h2
    simp [gh_get_commit_status, h1, h2]
  · intro o r p c msg br sha oracle m h1 h2
    simp [gh_put_file, h1, h2]

/-- Witness for the amended C3 at concrete invalid identifiers. -/
theorem validation_before_dispatch_amended_witness :
    gh_compare "bad name" "r" "a" "b" []
      = (.error (.valueError ("Invalid GitHub owner: " ++ pyReprStr "bad name")), []) ∧
    gh_get_file "o" "r" "/abs" none [] = (.error (.valueError "File path must be relative"), []) ∧
    gh_get_commit_status "o" "r" "" [] = (.error (.valueError "Git ref cannot be empty"), []) ∧
    gh_put_file "o" "r" "" "c" "m" none none []
      = (.error (.valueError "File path cannot be empty"), []) :=
  ⟨validation_before_dispatch_amended.1 "bad name" "r" "a" "b" [] _ rfl,
   validation_before_dispatch_amended.2.1 "o" "r" "/abs" none [] _ rfl rfl,
   validation_before_dispatch_amended.2.2.1 "o" "r" "" [] _ rfl rfl,
   validation_before_dispatch_amended.2.2.2 "o" "r" "" "c" "m" none none [] _ rfl rfl⟩

/-- Every successful result of the jobs stage carries `failed_jobs`
defined as the failure-filter of `jobs`. -/
theorem ciFetchJobs_ok_partition (owner repo : String) (run : JSON) (reqs1 : List Req)
    (oracle : List TransportResp) (info : CiDiagnosisInfo) (reqs : List Req)
    (h : ciFetchJobs owner repo run reqs1 oracle = (.ok info, reqs)) :
    info.failed_jobs = info.jobs.filter (fun j => j.conclusion == some "failure") := by
  unfold ciFetchJobs at h
  split at h
  · simp at h
  · split at h
    · split at h
      · simp at h
      · rw [Prod.mk.injEq] at h
        obtain ⟨h1, h2⟩ := h
        rw [Except.ok.injEq] at h1
        subst h1
        rfl
    · simp at h

/-- C1: every diagnosis result returned by `gh_ci_diagnosis` has
`failed_jobs` exactly the order-preserving sublist of `jobs` with
conclusion `"failure"`: each failed job is a job with that conclusion,
and each job outside `failed_jobs` has a different conclusion. -/
theorem ci_diagnosis_failed_jobs_partition (owner repo : String)
    (run_id : Option Int) (branch : Option String) (oracle : List TransportResp)
    (info : CiDiagnosisInfo) (reqs : List Req)
    (h : gh_ci_diagnosis owner repo run_id branch oracle = (.ok info, reqs)) :
    info.failed_jobs = info.jobs.filter (fun j => j.conclusion == some "failure") ∧
    (∀ j ∈ info.failed_jobs, j ∈ info.jobs ∧ j.conclusion = some "failure") ∧
    (∀ j ∈ info.jobs, j ∉ info.failed_jobs → j.conclusion ≠ some "failure") := by
  have hmain : info.failed_jobs = info.jobs.filter (fun j => j.conclusion == some "failure") := by
    unfold gh_ci_diagnosis at h
    split at h
    · simp at h
    · split at h
      · simp at h
      · exact ciFetchJobs_ok_partition owner repo _ _ oracle info reqs h
  refine ⟨hmain, ?_, ?_⟩
  · intro j hj
    rw [hmain] at hj
    have := List.mem_filter.mp hj
    exact ⟨this.1, by simpa using this.2⟩
  · intro j hj hnot hc
    apply hnot
    rw [hmain]
    exact List.mem_filter.mpr ⟨hj, by simp [hc]⟩

/-- Canned transport oracle for the end-to-end diagnosis scenario: the
run fetch answers run 42, the jobs fetch answers a passing build job and
a failing test job with one failed step. -/
def ciOracle : List TransportResp :=
  [ { success := true, response := some (.obj [("id", .num 42), ("name", .str "CI")]) }
  , { success := true, response := some (.obj [("jobs", .arr
      [ .obj [("id", .num 1), ("name", .str "build"), ("status", .str "completed"),
              ("conclusion", .str "success"), ("steps", .arr [])]
      , .obj [("id", .num 2), ("name", .str "test"), ("status", .str "completed"),
              ("conclusion", .str "failure"),
              ("steps", .arr [.obj [("name", .str "run-tests"), ("status", .str "completed"),
                ("conclusion", .str "failure"), ("number", .num 1)]])] ])]) } ]

/-- The diagnosis record produced from `ciOracle`. -/
def ciInfoW : CiDiagnosisInfo :=
  { run_id := 42, run_name := some "CI", status := none, conclusion := none, branch := none
  , jobs :=
      [ { id := 1, name := "build", status := "completed", conclusion := some "success", steps := [] }
      , { id := 2, name := "test", status := "completed", conclusion := some "failure",
          steps := [{ name := "run-tests", status := "completed", conclusion := some "failure", number := 1 }] } ]
  , failed_jobs :=
      [ { id := 2, name := "test", status := "completed", conclusion := some "failure",
          steps := [{ name := "run-tests", status := "completed", conclusion := some "failure", number := 1 }] } ] }

/-- The request trace produced from `ciOracle`. -/
def ciReqsW : List Req :=
  [ { method := "GET", path := runFetchPath "o" "r" 42 }
  , { method := "GET", path := jobsFetchPath "o" "r" 42 } ]

/-- Witness for C1 on the end-to-end scenario. -/
theorem ci_diagnosis_failed_jobs_partition_witness :
    gh_ci_diagnosis "o" "r" (some 42) none ciOracle = (.ok ciInfoW, ciReqsW) ∧
    ciInfoW.failed_jobs = ciInfoW.jobs.filter (fun j => j.conclusion == some "failure") :=
  ⟨rfl, (ci_diagnosis_failed_jobs_partition "o" "r" (some 42) none ciOracle ciInfoW ciReqsW rfl).1⟩

/-- C2 counterexample: with both selectors supplied but `run_id = 0`
(falsy in Python), `gh_ci_diagnosis` issues the branch-filtered run-list
call instead of fetching the run by id. -/
theorem ci_diagnosis_zero_run_id_uses_branch :
    (gh_ci_diagnosis "o" "r" (some 0) (some "main")
        [ { success := true,
            response := some (.obj [("workflow_runs", .arr [.obj [("id", .num 9)]])]) }
        , { success := false } ]).2.head?
      = some { method := "GET", path := branchListPath "o" "r" "main" } ∧
    branchListPath "o" "r" "main" = "/repos/o/r/actions/runs?branch=main&per_page=1" :=
  ⟨rfl, rfl⟩

/-- A path extended with a slash segment never equals one extended with
a query string. -/
theorem append_slash_ne_append_query (e x y : String) :
    e ++ ("/" ++ x) ≠ (e ++ "?") ++ y := by
  intro h
  have h0 := congrArg String.data h
  simp [String.data_append, List.append_assoc] at h0

/-- With a truthy `run_id`, the run-resolution stage dispatches exactly
one request: the single-run fetch. -/
theorem ciResolveRun_runid_trace (owner repo : String) (rid : Int) (branch : Option String)
    (oracle : List TransportResp) (hr : rid ≠ 0) :
    (ciResolveRun owner repo (some rid) branch oracle).2
      = [{ method := "GET", path := runFetchPath owner repo rid }] := by
  have ht : truthyOptInt (some rid) = true := by simp [truthyOptInt, hr]
  unfold ciResolveRun
  rw [if_pos ht]
  split <;> rfl

/-- The jobs stage adds at most one request, and that request targets
the jobs endpoint of some resolved run id. -/
theorem ciFetchJobs_trace (owner repo : String) (run : JSON) (reqs1 : List Req)
    (oracle : List TransportResp) :
    (ciFetchJobs owner repo run reqs1 oracle).2 = reqs1 ∨
    ∃ n : Int, (ciFetchJobs owner repo run reqs1 oracle).2
      = reqs1 ++ [{ method := "GET", path := jobsFetchPath owner repo n }] := by
  unfold ciFetchJobs
  split
  · exact Or.inl rfl
  · rename_i idVal heq
    split
    · split
      · exact Or.inr ⟨pyInt idVal, rfl⟩
      · exact Or.inr ⟨pyInt idVal, rfl⟩
    · exact Or.inr ⟨pyInt idVal, rfl⟩

/-- The branch-filtered list path is the runs base extended with a query
string. -/
theorem branchListPath_eq (o r b : String) :
    branchListPath o r b
      = (runsBase o r ++ "?") ++ urlencode [("branch", b), ("per_page", toString (1 : Int))] := rfl

/-- The single-run fetch path differs from the branch-filtered list path. -/
theorem run_path_ne_branch_path (o r b : String) (rid : Int) :
    runFetchPath o r rid ≠ branchListPath o r b := by
  rw [branchListPath_eq]
  exact append_slash_ne_append_query (runsBase o r) (toString rid) _

/-- The jobs fetch path differs from the branch-filtered list path. -/
theorem jobs_path_ne_branch_path (o r b : String) (n : Int) :
    jobsFetchPath o r n ≠ branchListPath o r b := by
  rw [branchListPath_eq]
  exact append_slash_ne_append_query (runsBase o r) (toString n ++ "/jobs") _

/-- C2 amended: when a nonzero `run_id` is supplied together with a
branch, the run is resolved by one dispatch to the single-run endpoint
(the first request of the trace) and the branch-filtered run-list call
is never issued; a supplied `run_id` of `0` is falsy in Python and falls
back to branch resolution. -/
theorem ci_diagnosis_nonzero_run_id_precedence (owner repo : String) (rid : Int) (br : String)
    (oracle : List TransportResp)
    (hv : validate_owner_repo owner repo = .ok ()) (hr : rid ≠ 0) :
    (gh_ci_diagnosis owner repo (some rid) (some br) oracle).2.head?
      = some { method := "GET", path := runFetchPath owner repo rid } ∧
    ∀ q ∈ (gh_ci_diagnosis owner repo (some rid) (some br) oracle).2,
      q.path ≠ branchListPath owner repo br := by
  have htrace : (gh_ci_diagnosis owner repo (some rid) (some br) oracle).2
        = [{ method := "GET", path := runFetchPath owner repo rid }] ∨
      ∃ n : Int, (gh_ci_diagnosis owner repo (some rid) (some br) oracle).2
        = [{ method := "GET", path := runFetchPath owner repo rid },
           { method := "GET", path := jobsFetchPath owner repo n }] := by
    unfold gh_ci_diagnosis
    rw [hv]
    rcases hcr : ciResolveRun owner repo (some rid) (some br) oracle with ⟨res, reqs⟩
    have hreqs : reqs = [{ method := "GET", path := runFetchPath owner repo rid }] := by
      have h2 := ciResolveRun_runid_trace owner repo rid (some br) oracle hr
      rw [hcr] at h2
      exact h2
    subst hreqs
    cases res with
    | error e => exact Or.inl rfl
    | ok run =>
      rcases ciFetchJobs_trace owner repo run
          [{ method := "GET", path := runFetchPath owner repo rid }] oracle with h2 | ⟨n, h2⟩
      · exact Or.inl h2
      · exact Or.inr ⟨n, h2.trans rfl⟩
  rcases htrace with h | ⟨n, h⟩ <;> rw [h]
  · refine ⟨rfl, ?_⟩
    intro q hq
    rw [List.mem_singleton] at hq
    subst hq
    exact run_path_ne_branch_path owner repo br rid
  · refine ⟨rfl, ?_⟩
    intro q hq
    rcases List.mem_cons.mp hq with h1 | h1
    · subst h1
      exact run_path_ne_branch_path owner repo br rid
    · rw [List.mem_singleton] at h1
      subst h1
      exact jobs_path_ne_branch_path owner repo br n

/-- Witness for the amended C2 on the end-to-end oracle. -/
theorem ci_diagnosis_nonzero_run_id_precedence_witness :
    ((gh_ci_diagnosis "o" "r" (some 42) (some "main") ciOracle).2.head?
      = some { method := "GET", path := runFetchPath "o" "r" 42 }) ∧
    ∀ q ∈ (gh_ci_diagnosis "o" "r" (some 42) (some "main") ciOracle).2,
      q.path ≠ branchListPath "o" "r" "main" :=
  ci_diagnosis_nonzero_run_id_precedence "o" "r" 42 "main" ciOracle rfl (by decide)
